import Mathlib

/-!
Shallow embedding of the stocks repository (src/ig.py and src/analysis.py).

Conventions used throughout:
* Python numeric values (price levels, sizes) are embedded as rationals: every
  arithmetic operation performed by the code (+, -, *, np.sign, abs, linear
  quantile interpolation) is exact on the inputs considered here.
* Python dict keys that may be absent or None are embedded as Option.
* Python exceptions are embedded as an explicit error type PyErr, and code that
  can raise returns Except PyErr.
* pandas timestamps (pd.to_datetime) are embedded as a tagged copy of the raw
  string: parsing itself is vendor-library behaviour that none of the claims
  inspect beyond "the column was parsed".
-/

/-- Python exceptions that the embedded code can raise. -/
inductive PyErr
  | indexError
  | attributeError
  | keyError
  | valueError
deriving DecidableEq, Repr

/-! ## Transport layer: APIHandler._set_url and APIHandler._get (src/ig.py:54-109) -/

/-- Hex digit characters used by percent-encoding (uppercase, as urllib). -/
def hexDigit (n : Nat) : Char :=
  if n < 10 then Char.ofNat (48 + n) else Char.ofNat (55 + n)

/-- One character of urllib.parse.quote with the default safe set
(unreserved characters and the slash); ASCII model of the UTF-8 byte encoder. -/
def quoteChar (c : Char) : String :=
  if c.isAlphanum ∨ c = '_' ∨ c = '.' ∨ c = '-' ∨ c = '~' ∨ c = '/' then
    String.singleton c
  else
    "%" ++ String.singleton (hexDigit (c.toNat / 16 % 16)) ++
      String.singleton (hexDigit (c.toNat % 16))

/-- urllib.parse.quote(endpoint) as used by _set_url. -/
def pyQuote (s : String) : String :=
  String.join (s.toList.map quoteChar)

/-- APIHandler._set_url (src/ig.py:54-56): url = api_url + quote(endpoint). -/
def set_url (api_url endpoint : String) : String :=
  api_url ++ pyQuote endpoint

/-- The paging sub-object of a response's metadata: metadata.paging.next.
next = none embeds a null (or absent) next cursor. -/
structure Paging where
  next : Option String
deriving DecidableEq, Repr

/-- A response's metadata object. -/
structure PageMeta where
  paging : Paging
deriving DecidableEq, Repr

/-- One parsed JSON response body (response_page.json()): the resource payload
(abstracted to a string, since _get never inspects it) plus the optional
pagination metadata.  metadata = none embeds an absent (or empty, hence falsy)
metadata dict. -/
structure PageData where
  payload : String
  metadata : Option PageMeta
deriving DecidableEq, Repr

/-- One HTTP response as seen by _get: status code, raw body text and the
parsed JSON body. -/
structure HttpResponse where
  status : Nat
  text : String
  data : PageData
deriving DecidableEq, Repr

/-- The next-page URL computed at the end of each _get loop iteration
(src/ig.py:103-107): if the body has (truthy) metadata, read
metadata.paging.next; a truthy next is passed through _set_url, a falsy one
(null or empty string) ends the pagination. -/
def nextUrlOf (api_url : String) (p : PageData) : Option String :=
  match p.metadata with
  | some m =>
    match m.paging.next with
    | some endpt => if endpt = "" then none else some (set_url api_url endpt)
    | none => none
  | none => none

/-- Result of a _get call: the accumulated pages together with the number of
HTTP GET requests issued, or the single error value [msg] that _get returns on
a non-success status at verbosity 0 (discarding any earlier pages), or fuel
exhaustion (the Python loop would still be running). -/
inductive GetResult
  | pages (ps : List PageData) (requests : Nat)
  | transportError (code : Nat) (error : String) (requests : Nat)
  | outOfFuel
deriving DecidableEq, Repr

/-- The while-loop of APIHandler._get (src/ig.py:85-107), with the HTTP server
embedded as a function from URL to response and the unbounded loop embedded
with fuel.  State: the current url (none embeds Python None; the empty string
is likewise falsy for `while url`), the accumulated response bodies, and the
number of requests issued so far. -/
def igGetLoop (debug_level : Nat) (server : String → HttpResponse)
    (api_url : String) :
    Option String → Nat → List PageData → Nat → GetResult
  | none, _, acc, reqs => .pages acc reqs
  | some u, 0, acc, reqs => if u = "" then .pages acc reqs else .outOfFuel
  | some u, fuel + 1, acc, reqs =>
    if u = "" then .pages acc reqs
    else
      let r := server u
      if r.status ≠ 200 ∧ debug_level = 0 then
        .transportError r.status r.text (reqs + 1)
      else
        igGetLoop debug_level server api_url (nextUrlOf api_url r.data) fuel
          (acc ++ [r.data]) (reqs + 1)

/-- APIHandler._get (src/ig.py:74-109): start the loop at the given url with no
accumulated responses and no requests issued. -/
def ig_get (debug_level : Nat) (server : String → HttpResponse)
    (api_url : String) (url : String) (fuel : Nat) : GetResult :=
  igGetLoop debug_level server api_url (some url) fuel [] 0

/-- A valid pagination sequence: a list of (url, body) pairs such that each url
is truthy, the server answers it with status 200 and that body, and the
next-page url computed from the body (per the _get loop) is exactly the next
entry's url — none after the last entry. -/
def ServesChain (server : String → HttpResponse) (api_url : String) :
    List (String × PageData) → Prop
  | [] => True
  | (u, p) :: rest =>
    u ≠ "" ∧ (server u).status = 200 ∧ (server u).data = p ∧
      nextUrlOf api_url p = (rest.head?.map Prod.fst) ∧
      ServesChain server api_url rest

/-- The url at which a pagination chain starts (none for the empty chain). -/
def chainStart (chain : List (String × PageData)) : Option String :=
  chain.head?.map Prod.fst

/-! ## Login: APIHandler.login (src/ig.py:30-52) -/

/-- One response to the login POST. -/
structure LoginResponse where
  status : Nat
  reason : String
  body : String
deriving DecidableEq, Repr

/-- The retry loop of APIHandler.login (src/ig.py:38-45), with the server's
successive answers to the repeated POST embedded as a stream and the unbounded
while-loop embedded with fuel.  Attempt i posts the credentials and receives
resp i; a 200 ends the loop returning the successful response together with
the total number of POSTs issued; any other status retries immediately
(no backoff, no bound).  none embeds fuel exhaustion: the Python loop would
still be running. -/
def loginLoop (resp : Nat → LoginResponse) : Nat → Nat → Option (LoginResponse × Nat)
  | 0, _ => none
  | fuel + 1, i =>
    let r := resp i
    if r.status = 200 then some (r, i + 1) else loginLoop resp fuel (i + 1)

/-- APIHandler.login's retry behaviour: start at attempt 0.  (The token and
header extraction that follows a successful response is not modelled: no claim
inspects it.) -/
def login (resp : Nat → LoginResponse) (fuel : Nat) : Option (LoginResponse × Nat) :=
  loginLoop resp fuel 0

/-! ## Positions normalizer: APIHandler.positions (src/ig.py:176-210) -/

/-- The "market" half of one positions entry, restricted to the fields the
projection market_info = [bid, epic, instrumentName, offer] keeps (the vendor
sends more fields; the code drops them by column selection). -/
structure MarketHalf where
  bid : ℚ
  epic : String
  instrumentName : String
  offer : ℚ
deriving DecidableEq, Repr

/-- The "position" half of one positions entry, restricted to the fields the
projection position_info = [dealId, direction, level, limitLevel, size,
stopLevel] keeps. -/
structure PositionHalf where
  dealId : String
  direction : String
  level : ℚ
  limitLevel : ℚ
  size : ℚ
  stopLevel : ℚ
deriving DecidableEq, Repr

/-- One entry of a positions page: frame = {'position': {...}, 'market': {...}}. -/
structure RawPosition where
  position : PositionHalf
  market : MarketHalf
deriving DecidableEq, Repr

/-- One page of the /positions response: page['positions']. -/
structure PositionsPage where
  positions : List RawPosition
deriving DecidableEq, Repr

/-- One merged row before the derived columns are added.  The code builds it by
df.loc['position'].combine_first(df.loc['market']) (position fields win on
overlap; the two halves are disjoint on the ten projected columns), selects
market_info + position_info and renames size to contractSize
(src/ig.py:188-192). -/
structure PositionRow where
  bid : ℚ
  epic : String
  instrumentName : String
  offer : ℚ
  dealId : String
  direction : String
  level : ℚ
  limitLevel : ℚ
  contractSize : ℚ
  stopLevel : ℚ
deriving DecidableEq, Repr

/-- Merge one entry into one row (src/ig.py:188-192). -/
def mergeRow (r : RawPosition) : PositionRow :=
  { bid := r.market.bid
    epic := r.market.epic
    instrumentName := r.market.instrumentName
    offer := r.market.offer
    dealId := r.position.dealId
    direction := r.position.direction
    level := r.position.level
    limitLevel := r.position.limitLevel
    contractSize := r.position.size
    stopLevel := r.position.stopLevel }

/-- A merged row with the five derived columns added (src/ig.py:196-208). -/
structure PositionRowD where
  bid : ℚ
  epic : String
  instrumentName : String
  offer : ℚ
  dealId : String
  direction : String
  level : ℚ
  limitLevel : ℚ
  contractSize : ℚ
  stopLevel : ℚ
  close_level : ℚ
  profit : ℚ
  stop_distance : ℚ
  limit_distance : ℚ
deriving DecidableEq, Repr

/-- np.sign on rationals. -/
def npSign (q : ℚ) : ℚ :=
  if q < 0 then -1 else if 0 < q then 1 else 0

/-- The derived-column block of positions (src/ig.py:197-208), applied to one
row.  np.where(direction == 'BUY', a, b) is elementwise, so the block is a map
over rows: contractSize is flipped unless direction is 'BUY'; close_level is
bid for 'BUY' and offer otherwise; profit, stop_distance and limit_distance
follow from the updated columns. -/
def deriveRow (r : PositionRow) : PositionRowD :=
  let cs := if r.direction = "BUY" then r.contractSize else r.contractSize * (-1)
  let close := if r.direction = "BUY" then r.bid else r.offer
  { bid := r.bid
    epic := r.epic
    instrumentName := r.instrumentName
    offer := r.offer
    dealId := r.dealId
    direction := r.direction
    level := r.level
    limitLevel := r.limitLevel
    contractSize := cs
    stopLevel := r.stopLevel
    close_level := close
    profit := (close - r.level) * cs
    stop_distance := (r.stopLevel - close) * npSign cs
    limit_distance := (r.limitLevel - close) * npSign cs }

/-- All merged rows of all pages, in served order (the two nested for-loops of
src/ig.py:186-194). -/
def mergedRows (pages : List PositionsPage) : List PositionRow :=
  (pages.map (fun pg => pg.positions.map mergeRow)).join

/-- The positions result: pandas returns an empty frame (which in particular
has none of the derived columns) when no row was accumulated, and a table of
fully derived rows otherwise. -/
inductive PositionsResult
  | empty
  | table (rows : List PositionRowD)
deriving DecidableEq, Repr

/-- APIHandler.positions after the _get call (src/ig.py:184-210): accumulate
the merged rows of every page, then — only if the frame is non-empty — add the
derived columns. -/
def positionsNormalize (pages : List PositionsPage) : PositionsResult :=
  let rows := mergedRows pages
  if rows.isEmpty then .empty else .table (rows.map deriveRow)

/-- pandas concatenation of two positions results (df.append semantics on
frames of identical schema; appending an empty, column-less frame is the
identity on either side). -/
def positionsAppend : PositionsResult → PositionsResult → PositionsResult
  | .empty, y => y
  | x, .empty => x
  | .table a, .table b => .table (a ++ b)

/-! ## Orders normalizer: APIHandler.orders (src/ig.py:212-233) -/

/-- The workingOrderData half of one working-orders entry (fields the derived
column and the CLI read; the vendor sends more). -/
structure WorkingOrderData where
  dealId : String
  direction : String
  orderSize : ℚ
  orderLevel : ℚ
deriving DecidableEq, Repr

/-- The marketData half of one working-orders entry. -/
structure OrderMarketData where
  bid : ℚ
  offer : ℚ
  epic : String
  instrumentName : String
deriving DecidableEq, Repr

/-- One entry of a working-orders page. -/
structure RawOrder where
  workingOrderData : WorkingOrderData
  marketData : OrderMarketData
deriving DecidableEq, Repr

/-- One page of the /workingorders response: page['workingOrders']. -/
structure OrdersPage where
  workingOrders : List RawOrder
deriving DecidableEq, Repr

/-- One merged working-order row: workingOrderData.combine_first(marketData)
(src/ig.py:221-223); the halves are disjoint on the modelled fields. -/
structure OrderRow where
  dealId : String
  direction : String
  orderSize : ℚ
  orderLevel : ℚ
  bid : ℚ
  offer : ℚ
  epic : String
  instrumentName : String
deriving DecidableEq, Repr

/-- Merge one working-orders entry into one row. -/
def mergeOrder (r : RawOrder) : OrderRow :=
  { dealId := r.workingOrderData.dealId
    direction := r.workingOrderData.direction
    orderSize := r.workingOrderData.orderSize
    orderLevel := r.workingOrderData.orderLevel
    bid := r.marketData.bid
    offer := r.marketData.offer
    epic := r.marketData.epic
    instrumentName := r.marketData.instrumentName }

/-- A merged order row with the derived order_dist column (src/ig.py:229-231). -/
structure OrderRowD where
  dealId : String
  direction : String
  orderSize : ℚ
  orderLevel : ℚ
  bid : ℚ
  offer : ℚ
  epic : String
  instrumentName : String
  order_dist : ℚ
deriving DecidableEq, Repr

/-- order_dist = (offer if direction == 'BUY' else bid) - orderLevel, per row. -/
def deriveOrder (r : OrderRow) : OrderRowD :=
  { dealId := r.dealId
    direction := r.direction
    orderSize := r.orderSize
    orderLevel := r.orderLevel
    bid := r.bid
    offer := r.offer
    epic := r.epic
    instrumentName := r.instrumentName
    order_dist := (if r.direction = "BUY" then r.offer else r.bid) - r.orderLevel }

/-- The orders result (empty frame, or table with the derived column). -/
inductive OrdersResult
  | empty
  | table (rows : List OrderRowD)
deriving DecidableEq, Repr

/-- APIHandler.orders after the _get call (src/ig.py:217-233): accumulate the
merged rows of every page; add order_dist only if the frame is non-empty. -/
def ordersNormalize (pages : List OrdersPage) : OrdersResult :=
  let rows := (pages.map (fun pg => pg.workingOrders.map mergeOrder)).join
  if rows.isEmpty then .empty else .table (rows.map deriveOrder)

/-! ## Prices: APIHandler.prices (src/ig.py:122-174) -/

/-- The fixed resolution enumeration (src/ig.py:123-126). -/
def valid_resolutions : List String :=
  ["SECOND", "MINUTE", "MINUTE_2", "MINUTE_3", "MINUTE_5", "MINUTE_10",
   "MINUTE_15", "MINUTE_30", "HOUR", "HOUR_2", "HOUR_3", "HOUR_4", "DAY",
   "WEEK", "MONTH"]

/-- The resolution-validation block of prices (src/ig.py:128-133): an argument
outside the enumeration is replaced by 'HOUR'; the substitution warning is
printed only when the handler's debug_level is truthy.  Returns the resolution
actually used and whether the warning was printed. -/
def resolveResolution (debug_level : Nat) (resolution : String) : String × Bool :=
  if valid_resolutions.contains resolution then (resolution, false)
  else ("HOUR", decide (debug_level ≠ 0))

/-- One nested price sub-object (openPrice/closePrice/highPrice/lowPrice):
bid/ask/lastTraded, each possibly null (pandas NaN). -/
structure PricePoint where
  bid : Option ℚ
  ask : Option ℚ
  lastTraded : Option ℚ
deriving DecidableEq, Repr

/-- One OHLC candle of page['prices'].  The four Price sub-objects are always
present (they are what the expansion loop iterates over); their subfields and
the volume may be null. -/
structure PriceBar where
  snapshotTime : String
  openPrice : PricePoint
  closePrice : PricePoint
  highPrice : PricePoint
  lowPrice : PricePoint
  lastTradedVolume : Option ℚ
deriving DecidableEq, Repr

/-- One cell of a pandas frame in this embedding: a number, a raw string, a
parsed timestamp (pd.to_datetime output, tagged raw string), or NaN. -/
inductive Cell
  | num (q : ℚ)
  | str (s : String)
  | tstamp (s : String)
  | missing
deriving DecidableEq, Repr

/-- Option ℚ viewed as a cell (none is NaN). -/
def optCell : Option ℚ → Cell
  | some q => .num q
  | none => .missing

/-- The flat column names produced by the prices reshaping: the renames
snapshotTime → time and lastTradedVolume → volume (src/ig.py:169-170), and for
each Price column its expansion into <axis>_<subfield> (src/ig.py:163-167). -/
def flatCols : List String :=
  ["time", "volume",
   "open_bid", "open_ask", "open_lastTraded",
   "close_bid", "close_ask", "close_lastTraded",
   "high_bid", "high_ask", "high_lastTraded",
   "low_bid", "low_ask", "low_lastTraded"]

/-- The cell a bar contributes to each flat column. -/
def cellOf (b : PriceBar) : String → Cell
  | "time" => .str b.snapshotTime
  | "volume" => optCell b.lastTradedVolume
  | "open_bid" => optCell b.openPrice.bid
  | "open_ask" => optCell b.openPrice.ask
  | "open_lastTraded" => optCell b.openPrice.lastTraded
  | "close_bid" => optCell b.closePrice.bid
  | "close_ask" => optCell b.closePrice.ask
  | "close_lastTraded" => optCell b.closePrice.lastTraded
  | "high_bid" => optCell b.highPrice.bid
  | "high_ask" => optCell b.highPrice.ask
  | "high_lastTraded" => optCell b.highPrice.lastTraded
  | "low_bid" => optCell b.lowPrice.bid
  | "low_ask" => optCell b.lowPrice.ask
  | "low_lastTraded" => optCell b.lowPrice.lastTraded
  | _ => .missing

/-- A reshaped prices frame: the columns that survived dropna(axis=1) and the
rows, each row listing its (column, cell) pairs in column order. -/
structure PricesTable where
  cols : List String
  rows : List (List (String × Cell))
deriving DecidableEq, Repr

/-- Reshape the concatenated bars of all pages (src/ig.py:155-171): expand the
Price sub-objects into flat columns, rename, and dropna(axis=1) — a column is
kept only if no row is missing it. -/
def pricesTableOfBars (bars : List PriceBar) : PricesTable :=
  let cols := flatCols.filter (fun c => bars.all (fun b => cellOf b c ≠ Cell.missing))
  { cols := cols
    rows := bars.map (fun b => cols.map (fun c => (c, cellOf b c))) }

/-- prices.time = pd.to_datetime(prices.time) (src/ig.py:172): the time column
cells become parsed timestamps. -/
def parseTimeCol (t : PricesTable) : PricesTable :=
  { t with
    rows := t.rows.map (fun r => r.map (fun p =>
      if p.1 = "time" then
        (p.1, match p.2 with
              | Cell.str s => Cell.tstamp s
              | c => c)
      else p)) }

/-- One page as the prices code sees it: either the error value that _get
produced at verbosity 0 (a dict with 'error' and 'code' keys) or a data page
with its 'prices' list. -/
inductive PricesPage
  | errPage (code : Nat) (error : String)
  | dataPage (prices : List PriceBar)
deriving DecidableEq, Repr

/-- page['prices'] for every page: a later error page has no 'prices' key and
raises KeyError (src/ig.py:156-157). -/
def collectBars : List PricesPage → Except PyErr (List PriceBar)
  | [] => .ok []
  | .errPage _ _ :: _ => .error .keyError
  | .dataPage bars :: rest => (collectBars rest).map (fun tl => bars ++ tl)

/-- What prices produces from its pages: the passed-through error dict
(src/ig.py:151-152) or a reshaped table. -/
inductive PricesOutcome
  | errorValue (code : Nat) (error : String)
  | table (t : PricesTable)
deriving DecidableEq, Repr

/-- The page-processing part of APIHandler.prices (src/ig.py:150-174).
pages[0] on an empty list raises IndexError; a first page carrying a (truthy)
'code' key is returned as a value; otherwise all pages' bars are concatenated
and reshaped.  With no bars at all the frame is empty and column-less, so the
final prices.time access raises AttributeError. -/
def pricesNormalize : List PricesPage → Except PyErr PricesOutcome
  | [] => .error .indexError
  | .errPage code err :: _ => .ok (.errorValue code err)
  | .dataPage bars :: rest =>
    match collectBars (.dataPage bars :: rest) with
    | .error e => .error e
    | .ok allBars =>
      if allBars.isEmpty then .error .attributeError
      else .ok (.table (parseTimeCol (pricesTableOfBars allBars)))

/-- Cell lookup in a row by column name (NaN when the row lacks the column). -/
def rowLookup (r : List (String × Cell)) (c : String) : Cell :=
  match r.find? (fun p => p.1 = c) with
  | some p => p.2
  | none => .missing

/-- pandas concatenation of two reshaped frames (df.append semantics): the
column set is the union (first frame's order first), and a row missing a
column gets NaN there. -/
def concatTables (a b : PricesTable) : PricesTable :=
  let cols := a.cols ++ b.cols.filter (fun c => decide (c ∉ a.cols))
  { cols := cols
    rows := (a.rows ++ b.rows).map (fun r => cols.map (fun c => (c, rowLookup r c))) }

/-! ## Activity: APIHandler.activity (src/ig.py:235-255) -/

/-- One account-activity event: its date string plus the remaining fields. -/
structure ActivityRecord where
  date : String
  fields : List (String × Cell)
deriving DecidableEq, Repr

/-- One page of the /history/activity response: page['activities']. -/
structure ActivityPage where
  activities : List ActivityRecord
deriving DecidableEq, Repr

/-- One normalized activity row: the date column parsed, other fields kept. -/
structure ActivityRow where
  date : Cell
  fields : List (String × Cell)
deriving DecidableEq, Repr

/-- The page-processing part of APIHandler.activity (src/ig.py:250-255):
extend the record list with every page's activities, build the frame, and
parse its date column.  With no records the frame built by
pd.DataFrame.from_records([]) has no columns at all, so the df.date access
raises AttributeError. -/
def activityNormalize (pages : List ActivityPage) : Except PyErr (List ActivityRow) :=
  let records := (pages.map (fun p => p.activities)).join
  if records.isEmpty then .error .attributeError
  else .ok (records.map (fun r => { date := Cell.tstamp r.date, fields := r.fields }))

/-! ## Markets: APIHandler.markets (src/ig.py:257-267) -/

/-- The body of one market-navigation response, column-oriented: each key maps
to a list of records (e.g. 'nodes' and 'markets' each map to a list of
objects). -/
structure MarketsPage where
  cols : List (String × List (List (String × Cell)))
deriving DecidableEq, Repr

/-- A reshaped markets frame, column-oriented: surviving columns with their
cell lists. -/
structure MarketsTable where
  columns : List (String × List Cell)
deriving DecidableEq, Repr

/-- The keys appearing in a record list, in first-occurrence order (the column
set pd.DataFrame(list of dicts) builds). -/
def unionKeys (recs : List (List (String × Cell))) : List String :=
  ((recs.map (fun r => r.map Prod.fst)).join).foldl
    (fun acc k => if acc.contains k then acc else acc ++ [k]) []

/-- pd.DataFrame(list(df[col].values)): expand one column's record list into
one column per key, with NaN where a record lacks the key. -/
def expandColumn (recs : List (List (String × Cell))) : List (String × List Cell) :=
  (unionKeys recs).map (fun k => (k, recs.map (fun r => rowLookup r k)))

/-- The page-processing part of APIHandler.markets (src/ig.py:262-267).
response[0] on an empty list raises IndexError.  pd.DataFrame of the
column-oriented body requires all columns to have the same length
(ValueError otherwise); each column's records are then expanded, the expansions
concatenated side by side, and dropna(axis='columns') keeps only the columns
with no NaN. -/
def marketsNormalize : List MarketsPage → Except PyErr MarketsTable
  | [] => .error .indexError
  | page :: _ =>
    let lens := page.cols.map (fun c => c.2.length)
    if lens.all (fun n => decide (n = lens.headD 0)) then
      let expanded := (page.cols.map (fun c => expandColumn c.2)).join
      .ok { columns := expanded.filter (fun col => col.2.all (fun c => decide (c ≠ Cell.missing))) }
    else .error .valueError

/-! ## Trade-heuristic analysis: src/analysis.py -/

/-- A parsed time cell as the analysis code observes it: the only thing either
function reads from the time column is time.dt.weekday (Monday = 0). -/
structure PyTime where
  weekday : Nat
deriving DecidableEq, Repr

/-- One row of the already-materialized backtest table the analysis functions
consume: the parsed time plus the per-direction stop/limit/profit columns, and
any further columns the frame carries (extra), keyed by name. -/
structure TradeInputRow where
  time : PyTime
  buy_stop : ℚ
  buy_limit : ℚ
  buy_profit : ℚ
  sell_stop : ℚ
  sell_limit : ℚ
  sell_profit : ℚ
  extra : List (String × ℚ)
deriving DecidableEq, Repr

/-- day = {'buy': 0, 'sell': 4} (src/analysis.py:8 and :31).  The analysis
functions only ever look the two literal keys up; any other key would be a
KeyError, which the direction hypotheses of the theorems below exclude. -/
def dayOf (direction : String) : Nat :=
  if direction = "buy" then 0 else 4

/-- df[direction + '_stop'] for direction in {'buy','sell'}. -/
def colStop (direction : String) (r : TradeInputRow) : ℚ :=
  if direction = "buy" then r.buy_stop else r.sell_stop

/-- df[direction + '_limit'] for direction in {'buy','sell'}. -/
def colLimit (direction : String) (r : TradeInputRow) : ℚ :=
  if direction = "buy" then r.buy_limit else r.sell_limit

/-- df[direction + '_profit'] for direction in {'buy','sell'}. -/
def colProfit (direction : String) (r : TradeInputRow) : ℚ :=
  if direction = "buy" then r.buy_profit else r.sell_profit

/-- calendar.day_name. -/
def day_name : List String :=
  ["Monday", "Tuesday", "Wednesday", "Thursday", "Friday", "Saturday", "Sunday"]

/-- Insert into a sorted list of rationals. -/
def insertSorted (x : ℚ) : List ℚ → List ℚ
  | [] => [x]
  | y :: ys => if x ≤ y then x :: y :: ys else y :: insertSorted x ys

/-- Sort a list of rationals ascending (insertion sort). -/
def sortQ (xs : List ℚ) : List ℚ :=
  xs.foldr insertSorted []

/-- pandas Series.quantile with the default linear interpolation.  pandas
validates the percentile first and raises
ValueError('percentiles should all be in the interval 0 1') for q outside
that interval; on an empty series the result is NaN (embedded as none);
otherwise the value at virtual index q*(n-1) of the sorted data, linearly
interpolated between neighbours. -/
def seriesQuantile (xs : List ℚ) (q : ℚ) : Except PyErr (Option ℚ) :=
  if q < 0 ∨ 1 < q then .error .valueError
  else
    match sortQ xs with
    | [] => .ok none
    | s =>
      let n := s.length
      let pos : ℚ := q * ((n : ℚ) - 1)
      let lo : Nat := (Int.floor pos).toNat
      let frac : ℚ := pos - (lo : ℚ)
      let a := s.getD lo 0
      let b := s.getD (min (lo + 1) (n - 1)) 0
      .ok (some (a + frac * (b - a)))

/-- Series.apply(np.abs). -/
def seriesAbs (xs : List ℚ) : List ℚ :=
  xs.map (fun x => |x|)

/-- NaN-propagating division for derived columns (NaN arises when a direction
has no rows on its weekday). -/
def optDiv : Option ℚ → Option ℚ → Option ℚ
  | some a, some b => some (a / b)
  | _, _ => none

/-- NaN-propagating scalar multiplication. -/
def optSMul (c : ℚ) : Option ℚ → Option ℚ
  | some a => some (c * a)
  | none => none

/-- NaN-propagating subtraction. -/
def optSub : Option ℚ → Option ℚ → Option ℚ
  | some a, some b => some (a - b)
  | _, _ => none

/-- One row of the get_trades output frame. -/
structure TradeRow where
  day : String
  direction : String
  stop : Option ℚ
  limit : Option ℚ
  risk_reward_ratio : Option ℚ
  expected_value : Option ℚ
deriving DecidableEq, Repr

/-- One iteration of the direction loop of get_trades (src/analysis.py:11-20):
restrict to the direction's weekday, take the stop_quantile-quantile of the
absolute stops and the (1 - limit_quantile)-quantile of the absolute limits. -/
def tradeFor (df : List TradeInputRow) (stop_quantile limit_quantile : ℚ)
    (direction : String) : Except PyErr (String × String × Option ℚ × Option ℚ) :=
  let day_df := df.filter (fun r => decide (r.time.weekday = dayOf direction))
  match seriesQuantile (seriesAbs (day_df.map (colStop direction))) stop_quantile with
  | .error e => .error e
  | .ok stop =>
    match seriesQuantile (seriesAbs (day_df.map (colLimit direction))) (1 - limit_quantile) with
    | .error e => .error e
    | .ok lim => .ok (day_name.getD (dayOf direction) "", direction, stop, lim)

/-- get_trades (src/analysis.py:7-26): one row per direction in the loop order
['buy', 'sell'], then the derived risk_reward_ratio and expected_value
columns. -/
def get_trades (df : List TradeInputRow) (stop_quantile limit_quantile : ℚ) :
    Except PyErr (List TradeRow) :=
  match tradeFor df stop_quantile limit_quantile "buy" with
  | .error e => .error e
  | .ok buy =>
    match tradeFor df stop_quantile limit_quantile "sell" with
    | .error e => .error e
    | .ok sell =>
      .ok ([buy, sell].map (fun t =>
        { day := t.1
          direction := t.2.1
          stop := t.2.2.1
          limit := t.2.2.2
          risk_reward_ratio := optDiv t.2.2.2 t.2.2.1
          expected_value := optSub (optSMul limit_quantile t.2.2.2)
            (optSMul (1 - stop_quantile) t.2.2.1) }))

/-- get_trades with the caller's frame made explicit: the function body
contains no statement that writes into df (it only filters and aggregates), so
the caller's table after the call is the unchanged df.  Returned alongside the
result to state the frame effect of the call. -/
def get_trades_caller (df : List TradeInputRow) (stop_quantile limit_quantile : ℚ) :
    List TradeInputRow × Except PyErr (List TradeRow) :=
  (df, get_trades df stop_quantile limit_quantile)

/-- The per-row backtest classifier (src/analysis.py:34-40): -stop if the
absolute direction stop exceeds stop, else +limit if the absolute direction
limit exceeds limit, else the recorded direction profit. -/
def backtestCell (direction : String) (stop lim : ℚ) (r : TradeInputRow) : ℚ :=
  if stop < |colStop direction r| then -stop
  else if lim < |colLimit direction r| then lim
  else colProfit direction r

/-- Column assignment df[column_name] = values on one row's extra columns:
overwrite the column if the frame already has it, append it otherwise. -/
def setCol (column_name : String) (v : ℚ) (extra : List (String × ℚ)) :
    List (String × ℚ) :=
  if extra.any (fun p => decide (p.1 = column_name)) then
    extra.map (fun p => if p.1 = column_name then (column_name, v) else p)
  else extra ++ [(column_name, v)]

/-- Lookup of an extra column's value in a row (none when absent). -/
def lookupCol (column_name : String) (extra : List (String × ℚ)) : Option ℚ :=
  (extra.find? (fun p => decide (p.1 = column_name))).map Prod.snd

/-- backtest_trade (src/analysis.py:29-45), caller's-frame-explicit.  Line 42,
df_prices[column_name] = df_prices.apply(backtest, axis=1), writes the
classifier column into the caller's frame; the function then reads that column
back on the direction's weekday rows and prints count/sum/mean/median/std of
it (the printed report is reproduced from the returned series; np.std's square
root has no exact rational form and no claim reads it).  The Python function
returns None, so the observables are the mutated frame and that series. -/
def backtest_trade (df_prices : List TradeInputRow) (direction : String)
    (stop lim : ℚ) (column_name : String) : List TradeInputRow × List ℚ :=
  let df' := df_prices.map (fun r =>
    { r with extra := setCol column_name (backtestCell direction stop lim r) r.extra })
  let res := (df'.filter (fun r => decide (r.time.weekday = dayOf direction))).map
    (fun r => (lookupCol column_name r.extra).getD 0)
  (df', res)

/-! ## Concrete instances used by the witness and counterexample theorems -/

/-- First page body of the demo pagination chain: its next cursor names /p2. -/
def demoPage1 : PageData :=
  { payload := "positions page 1", metadata := some { paging := { next := some "/p2" } } }

/-- Second (last) page body of the demo chain: metadata absent. -/
def demoPage2 : PageData :=
  { payload := "positions page 2", metadata := none }

/-- A server holding a two-page pagination sequence. -/
def demoServer : String → HttpResponse := fun u =>
  if u = "https://api/p1" then { status := 200, text := "body1", data := demoPage1 }
  else if u = "https://api/p2" then { status := 200, text := "body2", data := demoPage2 }
  else { status := 404, text := "not found", data := { payload := "", metadata := none } }

/-- The two-page chain demoServer serves, starting at /p1. -/
def demoChain : List (String × PageData) :=
  [("https://api/p1", demoPage1), ("https://api/p2", demoPage2)]

/-- A server that answers every GET with a 500. -/
def errServer : String → HttpResponse := fun _ =>
  { status := 500, text := "internal error", data := { payload := "", metadata := none } }

/-- A login server that rejects the first two POSTs and accepts the third. -/
def demoLoginServer : Nat → LoginResponse := fun i =>
  if i < 2 then { status := 401, reason := "Unauthorized", body := "denied" }
  else { status := 200, reason := "OK", body := "tokens" }

/-- The SELL example row of C2 after merge and rename (level 100, bid 101,
offer 102, stopLevel 90, limitLevel 120, size 2). -/
def c2SellRow : PositionRow :=
  { bid := 101, epic := "E1", instrumentName := "Widget", offer := 102,
    dealId := "D1", direction := "SELL", level := 100, limitLevel := 120,
    contractSize := 2, stopLevel := 90 }

/-- What the derivation block produces on c2SellRow. -/
def c2SellDerived : PositionRowD :=
  { bid := 101, epic := "E1", instrumentName := "Widget", offer := 102,
    dealId := "D1", direction := "SELL", level := 100, limitLevel := 120,
    contractSize := -2, stopLevel := 90, close_level := 102, profit := -4,
    stop_distance := 12, limit_distance := -18 }

/-- A single positions page holding only the SELL example entry. -/
def c2Pages : List PositionsPage :=
  [{ positions := [{ position := { dealId := "D1", direction := "SELL", level := 100,
                                   limitLevel := 120, size := 2, stopLevel := 90 },
                     market := { bid := 101, epic := "E1", instrumentName := "Widget",
                                 offer := 102 } }] }]

/-- A single positions page holding only the BUY example entry of C3
(direction BUY, level 100, bid 101, offer 102, stopLevel 90, limitLevel 120,
size 2). -/
def c3Pages : List PositionsPage :=
  [{ positions := [{ position := { dealId := "D1", direction := "BUY", level := 100,
                                   limitLevel := 120, size := 2, stopLevel := 90 },
                     market := { bid := 101, epic := "E1", instrumentName := "Widget",
                                 offer := 102 } }] }]

/-- What the positions normalizer actually produces on c3Pages. -/
def c3BuyDerived : PositionRowD :=
  { bid := 101, epic := "E1", instrumentName := "Widget", offer := 102,
    dealId := "D1", direction := "BUY", level := 100, limitLevel := 120,
    contractSize := 2, stopLevel := 90, close_level := 101, profit := 2,
    stop_distance := -11, limit_distance := 19 }

/-- A price bar whose openPrice carries bid and ask. -/
def c9bar1 : PriceBar :=
  { snapshotTime := "2020-01-01T00:00:00"
    openPrice := { bid := some 1, ask := some 2, lastTraded := none }
    closePrice := { bid := none, ask := none, lastTraded := none }
    highPrice := { bid := none, ask := none, lastTraded := none }
    lowPrice := { bid := none, ask := none, lastTraded := none }
    lastTradedVolume := some 5 }

/-- A price bar like c9bar1 but with a null openPrice.ask. -/
def c9bar2 : PriceBar :=
  { snapshotTime := "2020-01-01T01:00:00"
    openPrice := { bid := some 3, ask := none, lastTraded := none }
    closePrice := { bid := none, ask := none, lastTraded := none }
    highPrice := { bid := none, ask := none, lastTraded := none }
    lowPrice := { bid := none, ask := none, lastTraded := none }
    lastTradedVolume := some 6 }

/-- Single-page responses and the two-page response built from the two bars. -/
def c9p1 : PricesPage := .dataPage [c9bar1]

/-- The second single-page response of the C9 counterexample. -/
def c9p2 : PricesPage := .dataPage [c9bar2]

/-- The table prices builds from c9p1 alone: open_ask survives dropna. -/
def c9t1 : PricesTable :=
  { cols := ["time", "volume", "open_bid", "open_ask"]
    rows := [[("time", Cell.tstamp "2020-01-01T00:00:00"), ("volume", Cell.num 5),
              ("open_bid", Cell.num 1), ("open_ask", Cell.num 2)]] }

/-- The table prices builds from c9p2 alone: open_ask never existed. -/
def c9t2 : PricesTable :=
  { cols := ["time", "volume", "open_bid"]
    rows := [[("time", Cell.tstamp "2020-01-01T01:00:00"), ("volume", Cell.num 6),
              ("open_bid", Cell.num 3)]] }

/-- The table prices builds from both pages together: dropna removes open_ask
from every row because c9bar2 is missing it. -/
def c9t12 : PricesTable :=
  { cols := ["time", "volume", "open_bid"]
    rows := [[("time", Cell.tstamp "2020-01-01T00:00:00"), ("volume", Cell.num 5),
              ("open_bid", Cell.num 1)],
             [("time", Cell.tstamp "2020-01-01T01:00:00"), ("volume", Cell.num 6),
              ("open_bid", Cell.num 3)]] }

/-- A two-row backtest table (one Monday row, one Friday row) for the analysis
examples. -/
def c8df : List TradeInputRow :=
  [{ time := { weekday := 0 }, buy_stop := -30, buy_limit := 50, buy_profit := 10,
     sell_stop := 25, sell_limit := 45, sell_profit := 8, extra := [] },
   { time := { weekday := 4 }, buy_stop := 12, buy_limit := -35, buy_profit := -4,
     sell_stop := -18, sell_limit := 60, sell_profit := 7, extra := [] }]

/-- A one-row table with no extra columns, for the frame-effect examples. -/
def c10df : List TradeInputRow :=
  [{ time := { weekday := 0 }, buy_stop := 10, buy_limit := 20, buy_profit := 5,
     sell_stop := 15, sell_limit := 25, sell_profit := 3, extra := [] }]

/-! ## Theorems -/

/-- The _get loop, run from the start of a valid pagination chain with any
accumulator and request count, consumes exactly the chain: it appends every
body in served order and issues one request per page. -/
theorem igGetLoop_serves (debug_level : Nat) (server : String → HttpResponse)
    (api_url : String) (chain : List (String × PageData)) :
    ∀ (acc : List PageData) (reqs fuel : Nat),
      ServesChain server api_url chain → chain.length ≤ fuel →
      igGetLoop debug_level server api_url (chainStart chain) fuel acc reqs
        = .pages (acc ++ chain.map Prod.snd) (reqs + chain.length) := by
  induction chain with
  | nil =>
    intro acc reqs fuel _ _
    simp [chainStart, igGetLoop]
  | cons hd tl ih =>
    intro acc reqs fuel hc hf
    obtain ⟨u, p⟩ := hd
    obtain ⟨hu, hstat, hdata, hnext, htl⟩ := hc
    cases fuel with
    | zero => exact absurd hf (by simp)
    | succ fuel =>
      have hlen : tl.length ≤ fuel := by
        simpa [Nat.succ_le_succ_iff] using hf
      have hcond : ¬((server u).status ≠ 200 ∧ debug_level = 0) :=
        fun h => h.1 hstat
      have hstep :
          igGetLoop debug_level server api_url (chainStart ((u, p) :: tl)) (fuel + 1) acc reqs
            = igGetLoop debug_level server api_url (nextUrlOf api_url (server u).data) fuel
                (acc ++ [(server u).data]) (reqs + 1) := by
        simp only [chainStart, List.head?_cons, Option.map_some, igGetLoop]
        rw [if_neg hu, if_neg hcond]
      have htail : nextUrlOf api_url p = chainStart tl := by
        rw [hnext]; rfl
      rw [hstep, hdata, htail, ih (acc ++ [p]) (reqs + 1) fuel htl hlen]
      have e1 : (acc ++ [p]) ++ tl.map Prod.snd = acc ++ ((u, p) :: tl).map Prod.snd := by
        simp
      have e2 : reqs + 1 + tl.length = reqs + ((u, p) :: tl).length := by
        simp; omega
      rw [e1, e2]

/-- C1: for every valid pagination sequence of N ≥ 0 pages (each page's
metadata.paging.next naming the next page and falsy on the last), _get
returns exactly the N page bodies in served order and issues exactly N GET
requests.  N = 0 corresponds to a falsy starting url, the only way the
while-loop body is never entered. -/
theorem transport_pagination (debug_level : Nat) (server : String → HttpResponse)
    (api_url : String) (chain : List (String × PageData)) (url : String) (fuel : Nat)
    (hchain : ServesChain server api_url chain)
    (hstart : chainStart chain = some url ∨ (chain = [] ∧ url = ""))
    (hfuel : chain.length ≤ fuel) :
    ig_get debug_level server api_url url fuel
      = .pages (chain.map Prod.snd) chain.length := by
  rcases hstart with h | ⟨hc, hu⟩
  · have hmain := igGetLoop_serves debug_level server api_url chain [] 0 fuel hchain hfuel
    rw [h] at hmain
    simpa [ig_get] using hmain
  · subst hc; subst hu
    cases fuel <;> simp [ig_get, igGetLoop]

/-- Witness for C1: the two-page demo chain is valid and _get returns both
pages with two requests. -/
theorem transport_pagination_witness :
    ServesChain demoServer "https://api" demoChain ∧
    demoChain.length ≤ 2 ∧
    ig_get 0 demoServer "https://api" "https://api/p1" 2
      = .pages (demoChain.map Prod.snd) demoChain.length := by
  have hchain : ServesChain demoServer "https://api" demoChain :=
    ⟨by decide, by decide, by decide, by decide,
     by decide, by decide, by decide, by decide, trivial⟩
  exact ⟨hchain, by decide,
    transport_pagination 0 demoServer "https://api" demoChain "https://api/p1" 2
      hchain (Or.inl (by decide)) (by decide)⟩

/-- C5: a GET answered with a non-success status is terminal at verbosity 0 —
the call stops after that request and produces the error value carrying the
status code and body — while at debug/verbose levels the raw response body is
appended to the accumulated pages and the loop continues instead of failing. -/
theorem transport_error_handling (server : String → HttpResponse) (api_url u : String)
    (fuel : Nat) (acc : List PageData) (reqs : Nat)
    (hu : u ≠ "") (hs : (server u).status ≠ 200) :
    igGetLoop 0 server api_url (some u) (fuel + 1) acc reqs
      = .transportError (server u).status (server u).text (reqs + 1) ∧
    ∀ debug_level : Nat, debug_level ≠ 0 →
      igGetLoop debug_level server api_url (some u) (fuel + 1) acc reqs
        = igGetLoop debug_level server api_url (nextUrlOf api_url (server u).data) fuel
            (acc ++ [(server u).data]) (reqs + 1) := by
  constructor
  · simp [igGetLoop, hu, hs]
  · intro debug_level hdbg
    simp only [igGetLoop]
    rw [if_neg hu, if_neg (fun h => hdbg h.2)]

/-- Witness for C5: a 500 response at verbosity 0 yields the error value after
one request; at verbosity 1 the body is accumulated and the loop goes on. -/
theorem transport_error_handling_witness :
    "https://api/x" ≠ "" ∧ (errServer "https://api/x").status ≠ 200 ∧
    (igGetLoop 0 errServer "https://api" (some "https://api/x") 3 [] 0
       = .transportError (errServer "https://api/x").status
           (errServer "https://api/x").text 1 ∧
     ∀ debug_level : Nat, debug_level ≠ 0 →
       igGetLoop debug_level errServer "https://api" (some "https://api/x") 3 [] 0
         = igGetLoop debug_level errServer "https://api"
             (nextUrlOf "https://api" (errServer "https://api/x").data) 2
             [(errServer "https://api/x").data] 1) := by
  refine ⟨by decide, by decide, ?_⟩
  have h := transport_error_handling errServer "https://api" "https://api/x" 2 [] 0
    (by decide) (by decide)
  simpa using h

/-- The login loop, started at attempt i, returns the first success: if the
next k attempts fail and attempt i+k succeeds, the result is response i+k
after i+k+1 total POSTs, for any fuel beyond k. -/
theorem loginLoop_first_success (resp : Nat → LoginResponse) :
    ∀ (k fuel i : Nat), (∀ j, j < k → (resp (i + j)).status ≠ 200) →
      (resp (i + k)).status = 200 → k < fuel →
      loginLoop resp fuel i = some (resp (i + k), i + k + 1) := by
  intro k
  induction k with
  | zero =>
    intro fuel i _ hok hf
    cases fuel with
    | zero => exact absurd hf (by omega)
    | succ fuel => simp only [loginLoop]; rw [if_pos (by simpa using hok)]; simp
  | succ k ih =>
    intro fuel i hfail hok hf
    cases fuel with
    | zero => exact absurd hf (by omega)
    | succ fuel =>
      have h0 : (resp i).status ≠ 200 := by
        have := hfail 0 (by omega)
        simpa using this
      simp only [loginLoop]
      rw [if_neg h0]
      have hfail' : ∀ j, j < k → (resp (i + 1 + j)).status ≠ 200 := by
        intro j hj
        have := hfail (j + 1) (by omega)
        have harg : i + 1 + j = i + (j + 1) := by omega
        rw [harg]; exact this
      have hok' : (resp (i + 1 + k)).status = 200 := by
        have harg : i + 1 + k = i + (k + 1) := by omega
        rw [harg]; exact hok
      have := ih fuel (i + 1) hfail' hok' (by omega)
      rw [this]
      have harg : i + 1 + k = i + (k + 1) := by omega
      rw [harg]

/-- If every attempt from i on fails, the loop never returns for any fuel. -/
theorem loginLoop_all_fail (resp : Nat → LoginResponse)
    (hfail : ∀ k, (resp k).status ≠ 200) :
    ∀ (fuel i : Nat), loginLoop resp fuel i = none := by
  intro fuel
  induction fuel with
  | zero => intro i; rfl
  | succ fuel ih =>
    intro i
    simp only [loginLoop]
    rw [if_neg (hfail i)]
    exact ih (i + 1)

/-- C7: login POSTs the credentials and retries unconditionally on every
non-success status with no retry limit — it returns exactly the first success
(after first-success-index + 1 POSTs), for any sufficient fuel; and while the
server keeps answering non-success it never terminates (every fuel bound is
exhausted). -/
theorem login_retry_spec (resp : Nat → LoginResponse) :
    (∀ k, (∀ j, j < k → (resp j).status ≠ 200) → (resp k).status = 200 →
      ∀ fuel, k < fuel → login resp fuel = some (resp k, k + 1)) ∧
    ((∀ k, (resp k).status ≠ 200) → ∀ fuel, login resp fuel = none) := by
  constructor
  · intro k hfail hok fuel hf
    have := loginLoop_first_success resp k fuel 0 (by simpa using hfail)
      (by simpa using hok) hf
    simpa [login] using this
  · intro hfail fuel
    simpa [login] using loginLoop_all_fail resp hfail fuel 0

/-- Witness for C7: against a server rejecting the first two POSTs, login
returns the third response after exactly three POSTs. -/
theorem login_retry_spec_witness :
    (∀ j, j < 2 → (demoLoginServer j).status ≠ 200) ∧
    (demoLoginServer 2).status = 200 ∧
    login demoLoginServer 5 = some (demoLoginServer 2, 3) := by
  refine ⟨by decide, by decide, ?_⟩
  exact (login_retry_spec demoLoginServer).1 2 (by decide) (by decide) 5 (by decide)

/-- C2: on every non-empty normalized positions table whose rows carry a
BUY/SELL direction, the normalizer's output is the rowwise derivation, and
per merged row: contractSize is negated exactly when the direction is SELL,
close_level is bid for BUY and offer for SELL, and profit, stop_distance and
limit_distance satisfy the claimed formulas over the derived columns; in
particular the SELL example (level 100, bid 101, offer 102, stopLevel 90,
limitLevel 120, size 2) derives to signed size -2, close_level 102,
profit -4, stop_distance 12, limit_distance -18. -/
theorem positions_derivation_spec (pages : List PositionsPage)
    (rows : List PositionRowD)
    (h : positionsNormalize pages = .table rows)
    (hdir : ∀ r ∈ mergedRows pages, r.direction = "BUY" ∨ r.direction = "SELL") :
    rows = (mergedRows pages).map deriveRow ∧
    (∀ r ∈ mergedRows pages,
      (deriveRow r).contractSize
          = (if r.direction = "SELL" then -r.contractSize else r.contractSize) ∧
      (deriveRow r).close_level = (if r.direction = "SELL" then r.offer else r.bid) ∧
      (deriveRow r).profit
          = ((deriveRow r).close_level - r.level) * (deriveRow r).contractSize ∧
      (deriveRow r).stop_distance
          = (r.stopLevel - (deriveRow r).close_level) * npSign (deriveRow r).contractSize ∧
      (deriveRow r).limit_distance
          = (r.limitLevel - (deriveRow r).close_level) * npSign (deriveRow r).contractSize) ∧
    deriveRow c2SellRow = c2SellDerived := by
  refine ⟨?_, ?_,
    by norm_num [deriveRow, npSign, c2SellRow, c2SellDerived, PositionRowD.mk.injEq,
      show ("SELL" : String) ≠ "BUY" from by decide]⟩
  · simp only [positionsNormalize] at h
    split at h
    · exact absurd h (by simp)
    · simpa using h.symm
  · intro r hr
    rcases hdir r hr with hb | hs
    · refine ⟨?_, ?_, rfl, rfl, rfl⟩ <;> simp [deriveRow, hb]
    · refine ⟨?_, ?_, rfl, rfl, rfl⟩ <;> simp [deriveRow, hs]

/-- Witness for C2 at the SELL example page. -/
theorem positions_derivation_spec_witness :
    positionsNormalize c2Pages = .table [c2SellDerived] ∧
    (∀ r ∈ mergedRows c2Pages, r.direction = "BUY" ∨ r.direction = "SELL") ∧
    ([c2SellDerived] = (mergedRows c2Pages).map deriveRow ∧
     (∀ r ∈ mergedRows c2Pages,
       (deriveRow r).contractSize
           = (if r.direction = "SELL" then -r.contractSize else r.contractSize) ∧
       (deriveRow r).close_level = (if r.direction = "SELL" then r.offer else r.bid) ∧
       (deriveRow r).profit
           = ((deriveRow r).close_level - r.level) * (deriveRow r).contractSize ∧
       (deriveRow r).stop_distance
           = (r.stopLevel - (deriveRow r).close_level) * npSign (deriveRow r).contractSize ∧
       (deriveRow r).limit_distance
           = (r.limitLevel - (deriveRow r).close_level) * npSign (deriveRow r).contractSize) ∧
     deriveRow c2SellRow = c2SellDerived) := by
  have h : positionsNormalize c2Pages = .table [c2SellDerived] := by
    norm_num [positionsNormalize, mergedRows, mergeRow, deriveRow, npSign, c2Pages,
      c2SellDerived, PositionRowD.mk.injEq, show ("SELL" : String) ≠ "BUY" from by decide]
  have hdir : ∀ r ∈ mergedRows c2Pages, r.direction = "BUY" ∨ r.direction = "SELL" := by
    simp [mergedRows, mergeRow, c2Pages]
  exact ⟨h, hdir, positions_derivation_spec c2Pages [c2SellDerived] h hdir⟩

/-- Counterexample for C3: on the BUY example page the normalizer yields a
single row whose stop_distance is -11, not the claimed 11. -/
theorem positions_buy_stop_distance_counterexample :
    positionsNormalize c3Pages = .table [c3BuyDerived] ∧
    c3BuyDerived.stop_distance = -11 ∧ c3BuyDerived.stop_distance ≠ 11 := by
  refine ⟨?_, rfl, by norm_num [c3BuyDerived]⟩
  norm_num [positionsNormalize, mergedRows, mergeRow, deriveRow, npSign, c3Pages,
    c3BuyDerived, PositionRowD.mk.injEq]

/-- C3 (amended): for the positions page with the single BUY entry
(direction BUY, level 100, bid 101, offer 102, stopLevel 90, limitLevel 120,
size 2) the normalizer yields contractSize 2, close_level 101, profit 2,
stop_distance -11 and limit_distance 19. -/
theorem positions_buy_example :
    positionsNormalize c3Pages = .table [c3BuyDerived] := by
  norm_num [positionsNormalize, mergedRows, mergeRow, deriveRow, npSign, c3Pages,
    c3BuyDerived, PositionRowD.mk.injEq]

/-- Counterexample for C4: on an empty page list the prices and markets code
raises IndexError (pages[0] and response[0]) and the activity code raises
AttributeError (df.date on a column-less empty frame) — not an empty table. -/
theorem normalizers_empty_counterexample :
    pricesNormalize [] = .error .indexError ∧
    activityNormalize [] = .error .attributeError ∧
    marketsNormalize [] = .error .indexError := by
  exact ⟨rfl, rfl, rfl⟩

/-- C4 (amended): an empty input page list gives the empty table for the
positions and orders normalizers (the positions one in particular without the
derived profit/distance columns, which only the non-empty branch adds), while
the prices and markets normalizers raise IndexError and the activity
normalizer raises AttributeError. -/
theorem normalizers_empty_input :
    positionsNormalize [] = .empty ∧
    ordersNormalize [] = .empty ∧
    pricesNormalize [] = .error .indexError ∧
    activityNormalize [] = .error .attributeError ∧
    marketsNormalize [] = .error .indexError := by
  exact ⟨rfl, rfl, rfl, rfl, rfl⟩

/-- Counterexample for C6: at the default verbosity 0 the invalid resolution
BOGUS is substituted by HOUR with no warning printed. -/
theorem resolution_silent_counterexample :
    valid_resolutions.contains "BOGUS" = false ∧
    resolveResolution 0 "BOGUS" = ("HOUR", false) := by
  decide

/-- C6 (amended): a resolution outside the fixed enumeration is replaced by
HOUR and never raises, but the warning is printed exactly when the verbosity
is nonzero; a valid resolution is used unchanged (and never warns). -/
theorem resolution_fallback (debug_level : Nat) (r : String) :
    (valid_resolutions.contains r = true → resolveResolution debug_level r = (r, false)) ∧
    (valid_resolutions.contains r = false →
      (resolveResolution debug_level r).1 = "HOUR" ∧
      ((resolveResolution debug_level r).2 = true ↔ debug_level ≠ 0)) := by
  constructor
  · intro hc
    simp only [resolveResolution]
    rw [if_pos hc]
  · intro hc
    have hc' : ¬ (valid_resolutions.contains r = true) := by
      intro hcontra
      rw [hc] at hcontra
      exact Bool.noConfusion hcontra
    simp only [resolveResolution]
    rw [if_neg hc']
    exact ⟨rfl, by simp⟩

/-- Witness for C6 at BOGUS with verbosity 1. -/
theorem resolution_fallback_witness :
    valid_resolutions.contains "BOGUS" = false ∧
    ((resolveResolution 1 "BOGUS").1 = "HOUR" ∧
     ((resolveResolution 1 "BOGUS").2 = true ↔ (1 : Nat) ≠ 0)) := by
  exact ⟨by decide, (resolution_fallback 1 "BOGUS").2 (by decide)⟩

/-- Appending two one-page positions normalizations, in each emptiness case,
matches normalizing the two pages together. -/
theorem positions_merge_assoc_core (l1 l2 : List PositionRow) :
    positionsAppend (if l1.isEmpty then .empty else .table (l1.map deriveRow))
        (if l2.isEmpty then .empty else .table (l2.map deriveRow))
      = (if (l1 ++ l2).isEmpty then .empty else .table ((l1 ++ l2).map deriveRow)) := by
  cases l1 with
  | nil => cases l2 with
    | nil => simp [positionsAppend]
    | cons b m => simp [positionsAppend]
  | cons a l => cases l2 with
    | nil => simp [positionsAppend]
    | cons b m => simp [positionsAppend]

/-- C9 (amended): page merging is associative for the positions normalizer —
normalizing two one-page responses separately and appending the tables equals
normalizing the two-page response together.  (For the prices normalizer the
corresponding statement is false; see the counterexample.) -/
theorem positions_merge_assoc (p1 p2 : PositionsPage) :
    positionsAppend (positionsNormalize [p1]) (positionsNormalize [p2])
      = positionsNormalize [p1, p2] := by
  have h1 : mergedRows [p1] = p1.positions.map mergeRow := by simp [mergedRows]
  have h2 : mergedRows [p2] = p2.positions.map mergeRow := by simp [mergedRows]
  have h12 : mergedRows [p1, p2]
      = p1.positions.map mergeRow ++ p2.positions.map mergeRow := by
    simp [mergedRows]
  simp only [positionsNormalize, h1, h2, h12]
  exact positions_merge_assoc_core (p1.positions.map mergeRow) (p2.positions.map mergeRow)

/-- Counterexample for C9: for the prices normalizer, processing the two
one-bar pages separately and concatenating keeps (and NaN-pads) the open_ask
column, while processing the two-page response together drops it everywhere —
the tables differ. -/
theorem prices_merge_counterexample :
    pricesNormalize [c9p1] = .ok (.table c9t1) ∧
    pricesNormalize [c9p2] = .ok (.table c9t2) ∧
    pricesNormalize [c9p1, c9p2] = .ok (.table c9t12) ∧
    concatTables c9t1 c9t2 ≠ c9t12 := by
  refine ⟨rfl, rfl, rfl, by decide⟩

/-- A quantile in [0, 1] never raises. -/
theorem seriesQuantile_ok (xs : List ℚ) (q : ℚ) (h0 : 0 ≤ q) (h1 : q ≤ 1) :
    ∃ v, seriesQuantile xs q = .ok v := by
  have hcond : ¬(q < 0 ∨ 1 < q) := by
    push_neg
    exact ⟨h0, h1⟩
  simp only [seriesQuantile]
  rw [if_neg hcond]
  cases hs : sortQ xs with
  | nil => exact ⟨none, rfl⟩
  | cons a l => exact ⟨_, rfl⟩

/-- A quantile above 1 raises ValueError. -/
theorem seriesQuantile_invalid (xs : List ℚ) (q : ℚ) (h : 1 < q) :
    seriesQuantile xs q = .error .valueError := by
  simp only [seriesQuantile]
  rw [if_pos (Or.inr h)]

/-- day lookup for buy. -/
theorem dayOf_buy : dayOf "buy" = 0 := by decide

/-- day lookup for sell. -/
theorem dayOf_sell : dayOf "sell" = 4 := by decide

/-- Column selection for the buy stop. -/
theorem colStop_buy : colStop "buy" = fun r => r.buy_stop := by
  funext r
  simp [colStop]

/-- Column selection for the sell stop. -/
theorem colStop_sell : colStop "sell" = fun r => r.sell_stop := by
  funext r
  rw [colStop, if_neg (by decide)]

/-- Column selection for the buy limit. -/
theorem colLimit_buy : colLimit "buy" = fun r => r.buy_limit := by
  funext r
  simp [colLimit]

/-- Column selection for the sell limit. -/
theorem colLimit_sell : colLimit "sell" = fun r => r.sell_limit := by
  funext r
  rw [colLimit, if_neg (by decide)]

/-- calendar.day_name[0]. -/
theorem day_name_monday : day_name.getD 0 "" = "Monday" := rfl

/-- calendar.day_name[4]. -/
theorem day_name_friday : day_name.getD 4 "" = "Friday" := rfl

/-- C8 (amended): for every input table and quantile parameters within the
valid percentile interval [0, 1], get_trades returns exactly two rows — buy
then sell — where each row's stop is the stopQuantile-quantile of the absolute
direction stops over the rows on the direction's weekday (buy Monday, sell
Friday), its limit is the (1 - limitQuantile)-quantile of the absolute
direction limits over those rows, and risk_reward_ratio = limit / stop and
expected_value = limitQuantile * limit - (1 - stopQuantile) * stop hold in
both rows (NaN-propagating when a weekday subset is empty). -/
theorem get_trades_spec (df : List TradeInputRow) (sq lq : ℚ)
    (hsq0 : 0 ≤ sq) (hsq1 : sq ≤ 1) (hlq0 : 0 ≤ lq) (hlq1 : lq ≤ 1) :
    ∃ bstop blimit sstop slimit : Option ℚ,
      seriesQuantile (seriesAbs ((df.filter
        (fun r => decide (r.time.weekday = 0))).map (fun r => r.buy_stop))) sq
          = .ok bstop ∧
      seriesQuantile (seriesAbs ((df.filter
        (fun r => decide (r.time.weekday = 0))).map (fun r => r.buy_limit))) (1 - lq)
          = .ok blimit ∧
      seriesQuantile (seriesAbs ((df.filter
        (fun r => decide (r.time.weekday = 4))).map (fun r => r.sell_stop))) sq
          = .ok sstop ∧
      seriesQuantile (seriesAbs ((df.filter
        (fun r => decide (r.time.weekday = 4))).map (fun r => r.sell_limit))) (1 - lq)
          = .ok slimit ∧
      get_trades df sq lq = .ok
        [{ day := "Monday", direction := "buy", stop := bstop, limit := blimit,
           risk_reward_ratio := optDiv blimit bstop,
           expected_value := optSub (optSMul lq blimit) (optSMul (1 - sq) bstop) },
         { day := "Friday", direction := "sell", stop := sstop, limit := slimit,
           risk_reward_ratio := optDiv slimit sstop,
           expected_value := optSub (optSMul lq slimit) (optSMul (1 - sq) sstop) }] := by
  have hl0 : (0 : ℚ) ≤ 1 - lq := by linarith
  have hl1 : 1 - lq ≤ 1 := by linarith
  have e1 : ∃ v, seriesQuantile (seriesAbs ((df.filter
      (fun r => decide (r.time.weekday = 0))).map (fun r => r.buy_stop))) sq = .ok v :=
    seriesQuantile_ok _ _ hsq0 hsq1
  have e2 : ∃ v, seriesQuantile (seriesAbs ((df.filter
      (fun r => decide (r.time.weekday = 0))).map (fun r => r.buy_limit))) (1 - lq) = .ok v :=
    seriesQuantile_ok _ _ hl0 hl1
  have e3 : ∃ v, seriesQuantile (seriesAbs ((df.filter
      (fun r => decide (r.time.weekday = 4))).map (fun r => r.sell_stop))) sq = .ok v :=
    seriesQuantile_ok _ _ hsq0 hsq1
  have e4 : ∃ v, seriesQuantile (seriesAbs ((df.filter
      (fun r => decide (r.time.weekday = 4))).map (fun r => r.sell_limit))) (1 - lq) = .ok v :=
    seriesQuantile_ok _ _ hl0 hl1
  obtain ⟨bstop, hbs⟩ := e1
  obtain ⟨blimit, hbl⟩ := e2
  obtain ⟨sstop, hss⟩ := e3
  obtain ⟨slimit, hsl⟩ := e4
  refine ⟨bstop, blimit, sstop, slimit, hbs, hbl, hss, hsl, ?_⟩
  have hbuy : tradeFor df sq lq "buy" = .ok ("Monday", "buy", bstop, blimit) := by
    simp only [tradeFor, dayOf_buy, colStop_buy, colLimit_buy, day_name_monday, hbs, hbl]
  have hsell : tradeFor df sq lq "sell" = .ok ("Friday", "sell", sstop, slimit) := by
    simp only [tradeFor, dayOf_sell, colStop_sell, colLimit_sell, day_name_friday, hss, hsl]
  simp only [get_trades, hbuy, hsell, List.map_cons, List.map_nil]

/-- Witness for C8 at the two-row table with both quantiles 4/5. -/
theorem get_trades_spec_witness :
    (0 ≤ (4 / 5 : ℚ)) ∧ ((4 / 5 : ℚ) ≤ 1) ∧
    (∃ bstop blimit sstop slimit : Option ℚ,
      seriesQuantile (seriesAbs ((c8df.filter
        (fun r => decide (r.time.weekday = 0))).map (fun r => r.buy_stop))) (4 / 5)
          = .ok bstop ∧
      seriesQuantile (seriesAbs ((c8df.filter
        (fun r => decide (r.time.weekday = 0))).map (fun r => r.buy_limit))) (1 - 4 / 5)
          = .ok blimit ∧
      seriesQuantile (seriesAbs ((c8df.filter
        (fun r => decide (r.time.weekday = 4))).map (fun r => r.sell_stop))) (4 / 5)
          = .ok sstop ∧
      seriesQuantile (seriesAbs ((c8df.filter
        (fun r => decide (r.time.weekday = 4))).map (fun r => r.sell_limit))) (1 - 4 / 5)
          = .ok slimit ∧
      get_trades c8df (4 / 5) (4 / 5) = .ok
        [{ day := "Monday", direction := "buy", stop := bstop, limit := blimit,
           risk_reward_ratio := optDiv blimit bstop,
           expected_value := optSub (optSMul (4 / 5) blimit) (optSMul (1 - 4 / 5) bstop) },
         { day := "Friday", direction := "sell", stop := sstop, limit := slimit,
           risk_reward_ratio := optDiv slimit sstop,
           expected_value := optSub (optSMul (4 / 5) slimit) (optSMul (1 - 4 / 5) sstop) }]) := by
  exact ⟨by norm_num, by norm_num,
    get_trades_spec c8df (4 / 5) (4 / 5) (by norm_num) (by norm_num) (by norm_num) (by norm_num)⟩

/-- Counterexample for C8: a stopQuantile of 2 makes get_trades raise
ValueError (pandas validates percentiles), so the claim does not hold for
arbitrary quantile parameters. -/
theorem get_trades_invalid_quantile_counterexample :
    get_trades c8df 2 (4 / 5) = .error .valueError := by
  have hb : ∀ xs : List ℚ, seriesQuantile xs 2 = .error .valueError :=
    fun xs => seriesQuantile_invalid xs 2 (by norm_num)
  simp only [get_trades, tradeFor, hb]

/-- Overwriting the cn column leaves lookups of any other column unchanged. -/
theorem find?_replaceCol (c cn : String) (hne : c ≠ cn) (v : ℚ) :
    ∀ l : List (String × ℚ),
      (l.map (fun p => if p.1 = cn then (cn, v) else p)).find?
          (fun p => decide (p.1 = c))
        = l.find? (fun p => decide (p.1 = c)) := by
  intro l
  induction l with
  | nil => rfl
  | cons a tl ih =>
    by_cases ha : a.1 = cn
    · have h1 : (if a.1 = cn then (cn, v) else a) = (cn, v) := by
        rw [if_pos ha]
      have hcnc : ¬(cn = c) := fun h => hne h.symm
      have hpa : ¬(a.1 = c) := by rw [ha]; exact hcnc
      rw [List.map_cons, h1,
        List.find?_cons_of_neg _ (by simpa using hcnc),
        List.find?_cons_of_neg _ (by simpa using hpa)]
      exact ih
    · have h1 : (if a.1 = cn then (cn, v) else a) = a := by
        rw [if_neg ha]
      rw [List.map_cons, h1]
      by_cases hac : a.1 = c
      · rw [List.find?_cons_of_pos _ (by simpa using hac),
          List.find?_cons_of_pos _ (by simpa using hac)]
      · rw [List.find?_cons_of_neg _ (by simpa using hac),
          List.find?_cons_of_neg _ (by simpa using hac)]
        exact ih

/-- The column write of backtest_trade touches only its own column: looking up
any other column after setCol gives the original value. -/
theorem lookupCol_setCol_ne (c cn : String) (hne : c ≠ cn) (v : ℚ)
    (extra : List (String × ℚ)) :
    lookupCol c (setCol cn v extra) = lookupCol c extra := by
  unfold lookupCol setCol
  by_cases hmem : extra.any (fun p => decide (p.1 = cn))
  · rw [if_pos hmem, find?_replaceCol c cn hne v extra]
  · rw [if_neg hmem, List.find?_append]
    have hnone : List.find? (fun p : String × ℚ => decide (p.1 = c)) [(cn, v)] = none := by
      rw [List.find?_cons_of_neg _ (by simpa using fun h : cn = c => hne h.symm)]
      rfl
    rw [hnone]
    cases extra.find? (fun p : String × ℚ => decide (p.1 = c)) <;> rfl

/-- C10 (amended): get_trades reads but never writes the caller's table, so
the table after the call is unchanged; backtest_trade, however, writes its
classifier column into the caller's table — the call leaves the same number of
rows, changes no column other than column_name, and sets column_name on every
row to the backtest classification of that row.  (The direction hypothesis
restricts to the directions whose columns exist; any other direction raises
KeyError inside the apply in Python.) -/
theorem analysis_frame_effects (df : List TradeInputRow) (sq lq : ℚ) (d : String)
    (stop lim : ℚ) (cn : String) (_hd : d = "buy" ∨ d = "sell") :
    (get_trades_caller df sq lq).1 = df ∧
    (backtest_trade df d stop lim cn).1
      = df.map (fun r => { r with extra := setCol cn (backtestCell d stop lim r) r.extra }) ∧
    (backtest_trade df d stop lim cn).1.length = df.length ∧
    (∀ r ∈ df, ∀ c : String, c ≠ cn →
      lookupCol c (setCol cn (backtestCell d stop lim r) r.extra) = lookupCol c r.extra) := by
  refine ⟨rfl, rfl, by simp [backtest_trade], ?_⟩
  intro r _ c hc
  exact lookupCol_setCol_ne c cn hc _ _

/-- Witness for C10 at the one-row table, direction buy, column 'trade'. -/
theorem analysis_frame_effects_witness :
    ("buy" = "buy" ∨ "buy" = "sell") ∧
    ((get_trades_caller c10df (4 / 5) (4 / 5)).1 = c10df ∧
     (backtest_trade c10df "buy" 20 40 "trade").1
       = c10df.map (fun r =>
           { r with extra := setCol "trade" (backtestCell "buy" 20 40 r) r.extra }) ∧
     (backtest_trade c10df "buy" 20 40 "trade").1.length = c10df.length ∧
     (∀ r ∈ c10df, ∀ c : String, c ≠ "trade" →
       lookupCol c (setCol "trade" (backtestCell "buy" 20 40 r) r.extra)
         = lookupCol c r.extra)) :=
  ⟨Or.inl rfl,
   analysis_frame_effects c10df (4 / 5) (4 / 5) "buy" 20 40 "trade" (Or.inl rfl)⟩

/-- Counterexample for C10: backtest_trade is not a pure transform — on the
one-row table with no extra columns it adds the 'trade' column (value 5, the
recorded buy profit) to the caller's table, which therefore differs from the
input. -/
theorem backtest_mutation_counterexample :
    (backtest_trade c10df "buy" 20 40 "trade").1
      = [{ time := { weekday := 0 }, buy_stop := 10, buy_limit := 20, buy_profit := 5,
           sell_stop := 15, sell_limit := 25, sell_profit := 3,
           extra := [("trade", 5)] }] ∧
    (backtest_trade c10df "buy" 20 40 "trade").1 ≠ c10df := by
  have hv : (backtest_trade c10df "buy" 20 40 "trade").1
      = [{ time := { weekday := 0 }, buy_stop := 10, buy_limit := 20, buy_profit := 5,
           sell_stop := 15, sell_limit := 25, sell_profit := 3,
           extra := [("trade", 5)] }] := by
    norm_num [backtest_trade, setCol, backtestCell, colStop, colLimit, colProfit, c10df,
      TradeInputRow.mk.injEq]
  refine ⟨hv, ?_⟩
  rw [hv]
  simp [c10df, TradeInputRow.mk.injEq]
